import Mathlib

/-!
Shallow embedding of the `types` package of jcdotter/gosimple
(src/types/types.go and the Class/ClassItem code of src/unnamed/part_000),
together with theorems settling the frozen claims C1..C10.

Modelling conventions:
* Go `float32`/`float64` values are carried as exact rationals (ℚ).  Every
  concrete input used in a theorem below is exactly representable at the
  width the source uses, so the exact-rational semantics agrees with the
  IEEE-754 semantics of the source on those inputs.
* Go runtime panics (nil `reflect.Type` method calls, out-of-range indexing,
  failing type assertions, `reflect.Value.Set` on a zero Value) are modelled
  by the distinguished result `Res.goPanic`.
* An unbounded recursion in the source (`ToString(&a)` on a pointer) is
  modelled by `Res.diverge`; for `IsEmpty`, whose termination is itself under
  scrutiny (claim C9), the recursion is embedded with an explicit fuel
  parameter and its divergence is proved, not assumed.
* Go's conversion of an out-of-range float to an integer type is
  implementation-defined by the language spec; the model truncates toward
  zero and wraps two's-complement, matching the gc toolchain where the value
  is defined.  No theorem below depends on such a value: out-of-range results
  are only ever inspected through `Res.isOk`.
* `map` iteration is modelled over association lists in insertion order.
-/

namespace types

/-- Result of a Go call: a value, a returned error, a runtime panic, or a
non-terminating computation. -/
inductive Res (α : Type) where
  | ok (a : α)
  | err (fn : String) (msg : String)
  | goPanic
  | diverge
deriving Repr

/-- Returns `true` iff the call returned normally without error. -/
def Res.isOk {α : Type} : Res α → Bool
  | .ok _ => true
  | _ => false

def Res.bind {α β : Type} : Res α → (α → Res β) → Res β
  | .ok a, f => f a
  | .err fn m, _ => .err fn m
  | .goPanic, _ => .goPanic
  | .diverge, _ => .diverge

instance : Monad Res where
  pure := Res.ok
  bind := Res.bind

/-- Go `int` widths (int is 64-bit on the reference platform). -/
inductive IW where
  | i | i8 | i16 | i32 | i64
deriving DecidableEq, Repr

/-- Go `uint` widths (uint is 64-bit on the reference platform). -/
inductive UW where
  | u | u8 | u16 | u32 | u64
deriving DecidableEq, Repr

/-- Go float widths. -/
inductive FW where
  | f32 | f64
deriving DecidableEq, Repr

/-- The subset of `reflect.Kind` the package touches. -/
inductive RKind where
  | rInvalid | rBool
  | rInt | rInt8 | rInt16 | rInt32 | rInt64
  | rUint | rUint8 | rUint16 | rUint32 | rUint64
  | rFloat32 | rFloat64
  | rString | rArray | rSlice | rMap | rStruct | rPtr | rFunc | rInterface
deriving DecidableEq, Repr

/-- The abstract `Type` enumeration of the source (`Type` is reserved in
Lean, hence `GoType`): Invalid, String, Int, Float, Uint, Bool, Time, UUID,
Array, Map, Struct, Func, Ptr, Any. -/
inductive GoType where
  | Invalid | String | Int | Float | Uint | Bool | Time | UUID
  | Array | Map | Struct | Func | Ptr | Any
deriving DecidableEq, Repr

/-- Embeds `typeNames` table of the source. -/
def typeNames : GoType → String
  | .Invalid => "invalid"
  | .String => "string"
  | .Int => "int"
  | .Float => "float"
  | .Uint => "uint"
  | .Bool => "bool"
  | .Time => "time"
  | .UUID => "uuid"
  | .Array => "array"
  | .Map => "map"
  | .Struct => "struct"
  | .Func => "function"
  | .Ptr => "pointer"
  | .Any => "any"

/-- Embeds `StringFormat` of the source. -/
inductive StringFormat where
  | None | Pascal | Camel | Snake | Phrase
deriving DecidableEq, Repr

/-- A Go runtime value as the package observes one through `any` and
`reflect`.  A struct is its name together with its fields, each field being
(name, tag list, current value); the zero value of an interface-typed struct
field is `vnil`.  `[]byte` payloads get their own constructor `vbytes`
(carrying the bytes as a string) so the `j.([]byte)` assertion of
`JsonToMap` is expressible. -/
inductive GoVal where
  | vnil
  | vstr (s : String)
  | vbool (b : Bool)
  | vint (w : IW) (i : Int)
  | vuint (w : UW) (n : Nat)
  | vfloat (w : FW) (q : ℚ)
  | vtime (unixSec : Int)
  | vuuid (u : String)
  | varr (xs : List GoVal)
  | vbytes (bs : String)
  | vmap (kvs : List (GoVal × GoVal))
  | vstruct (sname : String) (fields : List (String × List (String × String) × GoVal))
  | vptr (p : GoVal)
  | vfunc
deriving Repr

/-- Embeds `reflect.TypeOf(a).Kind()`: `none` models the nil `reflect.Type`
returned for a nil interface (on which calling `Kind` panics). -/
def reflectKindOf : GoVal → Option RKind
  | .vnil => none
  | .vstr _ => some .rString
  | .vbool _ => some .rBool
  | .vint .i _ => some .rInt
  | .vint .i8 _ => some .rInt8
  | .vint .i16 _ => some .rInt16
  | .vint .i32 _ => some .rInt32
  | .vint .i64 _ => some .rInt64
  | .vuint .u _ => some .rUint
  | .vuint .u8 _ => some .rUint8
  | .vuint .u16 _ => some .rUint16
  | .vuint .u32 _ => some .rUint32
  | .vuint .u64 _ => some .rUint64
  | .vfloat .f32 _ => some .rFloat32
  | .vfloat .f64 _ => some .rFloat64
  | .vtime _ => some .rStruct
  | .vuuid _ => some .rArray
  | .varr _ => some .rSlice
  | .vbytes _ => some .rSlice
  | .vmap _ => some .rMap
  | .vstruct _ _ => some .rStruct
  | .vptr _ => some .rPtr
  | .vfunc => some .rFunc

/-- Total variant used where the source reads `Kind()` of a value that is
known non-nil (e.g. a struct field's `reflect.Value`). -/
def rkindOfD (a : GoVal) : RKind := (reflectKindOf a).getD .rInvalid

/-- Embeds `IsString`: type assertion `a.(string)` (never panics). -/
def IsString : GoVal → Bool
  | .vstr _ => true
  | _ => false

/-- Embeds `IsBool`. -/
def IsBool : GoVal → Bool
  | .vbool _ => true
  | _ => false

/-- Embeds `IsInt`: int, int8, int16, int32 or int64. -/
def IsInt : GoVal → Bool
  | .vint _ _ => true
  | _ => false

/-- Embeds `IsFloat`: float32 or float64. -/
def IsFloat : GoVal → Bool
  | .vfloat _ _ => true
  | _ => false

/-- Embeds `IsUint`. -/
def IsUint : GoVal → Bool
  | .vuint _ _ => true
  | _ => false

/-- Embeds `IsNumber`. -/
def IsNumber (a : GoVal) : Bool := IsInt a || IsFloat a || IsUint a

/-- Embeds `IsBasic`. -/
def IsBasic (a : GoVal) : Bool := IsString a || IsNumber a || IsBool a

/-- Embeds `IsTime`: type assertion `a.(time.Time)`. -/
def IsTime : GoVal → Bool
  | .vtime _ => true
  | _ => false

/-- Embeds `IsUUID`: type assertion `a.(uuid.UUID)`. -/
def IsUUID : GoVal → Bool
  | .vuuid _ => true
  | _ => false

/-- Embeds `IsArray`: `reflect.TypeOf(a).Kind()` is Array or Slice; panics on nil. -/
def IsArray (a : GoVal) : Res Bool :=
  match reflectKindOf a with
  | none => .goPanic
  | some k => .ok (k = .rArray || k = .rSlice)

/-- Embeds `IsMap`; panics on nil. -/
def IsMap (a : GoVal) : Res Bool :=
  match reflectKindOf a with
  | none => .goPanic
  | some k => .ok (k = .rMap)

/-- Embeds `IsStruct`; panics on nil. -/
def IsStruct (a : GoVal) : Res Bool :=
  match reflectKindOf a with
  | none => .goPanic
  | some k => .ok (k = .rStruct)

/-- Embeds `IsPtr`; panics on nil. -/
def IsPtr (a : GoVal) : Res Bool :=
  match reflectKindOf a with
  | none => .goPanic
  | some k => .ok (k = .rPtr)

/-- Embeds `IsFunc`; panics on nil. -/
def IsFunc (a : GoVal) : Res Bool :=
  match reflectKindOf a with
  | none => .goPanic
  | some k => .ok (k = .rFunc)

/-- Embeds `IsValue`: basic, time, array, map or struct. -/
def IsValue (a : GoVal) : Res Bool :=
  if IsBasic a || IsTime a then .ok true
  else do
    let ar ← IsArray a
    if ar then return true
    let mp ← IsMap a
    if mp then return true
    IsStruct a

/-- Embeds `TypeOf`: the source's classification switch, in its order
String, Bool, Int, Float, Uint, Time, UUID, Array, Map, Struct, Ptr, Func.
The `IsArray` probe panics when `a` is nil. -/
def TypeOf (a : GoVal) : Res GoType :=
  if IsString a then .ok .String
  else if IsBool a then .ok .Bool
  else if IsInt a then .ok .Int
  else if IsFloat a then .ok .Float
  else if IsUint a then .ok .Uint
  else if IsTime a then .ok .Time
  else if IsUUID a then .ok .UUID
  else do
    let ar ← IsArray a
    if ar then return .Array
    let mp ← IsMap a
    if mp then return .Map
    let st ← IsStruct a
    if st then return .Struct
    let pt ← IsPtr a
    if pt then return .Ptr
    let fn ← IsFunc a
    if fn then return .Func
    return .Invalid

/-- Embeds `math.Round`: round to nearest integer, ties away from zero. -/
def goRound (q : ℚ) : Int :=
  if 0 ≤ q then ⌊q + 1/2⌋ else ⌈q - 1/2⌉

/-- Truncation toward zero, the behaviour of a Go float→integer conversion
on in-range values. -/
def truncQ (q : ℚ) : Int :=
  if 0 ≤ q then ⌊q⌋ else ⌈q⌉

/-- Two's-complement wrap of an integer into `bits` bits (the gc behaviour
for integer conversions; out-of-range float→int conversions are
implementation-defined in Go and no theorem depends on their value). -/
def intWrap (bits : Nat) (i : Int) : Int :=
  (i + 2 ^ (bits - 1)) % (2 ^ bits : Nat) - 2 ^ (bits - 1)

/-- Wrap of an integer into an unsigned value of `bits` bits. -/
def uintWrap (bits : Nat) (i : Int) : Nat :=
  (i % (2 ^ bits : Nat)).toNat

/-- Bit width of an `IW`. -/
def IW.bits : IW → Nat
  | .i => 64 | .i8 => 8 | .i16 => 16 | .i32 => 32 | .i64 => 64

/-- Bit width of a `UW`. -/
def UW.bits : UW → Nat
  | .u => 64 | .u8 => 8 | .u16 => 16 | .u32 => 32 | .u64 => 64

/-- The `reflect.Kind` of each signed width. -/
def IW.kind : IW → RKind
  | .i => .rInt | .i8 => .rInt8 | .i16 => .rInt16 | .i32 => .rInt32 | .i64 => .rInt64

/-- The `reflect.Kind` of each unsigned width. -/
def UW.kind : UW → RKind
  | .u => .rUint | .u8 => .rUint8 | .u16 => .rUint16 | .u32 => .rUint32 | .u64 => .rUint64

/-- Embeds `math.MaxFloat32` as an exact rational: (2 - 2^-23) * 2^127. -/
def maxFloat32 : ℚ := (2 ^ 24 - 1) * 2 ^ 104

/-- Embeds `math.MaxFloat64` as an exact rational: (2 - 2^-52) * 2^1023. -/
def maxFloat64 : ℚ := (2 ^ 53 - 1) * 2 ^ 971

/-- Embeds `TypeOverflowLimit`: the per-kind limit table, each entry being the
`float64` conversion of the corresponding `math.Max...` constant.  The
64-bit maxima are not representable in float64 and round up:
`float64(math.MaxInt) = float64(math.MaxInt64) = 2^63` and
`float64(math.MaxUint) = float64(math.MaxUint64) = 2^64`. -/
def TypeOverflowLimit (t : RKind) : Res ℚ :=
  match t with
  | .rInt => .ok (2 ^ 63)
  | .rInt8 => .ok 127
  | .rInt16 => .ok 32767
  | .rInt32 => .ok 2147483647
  | .rInt64 => .ok (2 ^ 63)
  | .rUint => .ok (2 ^ 64)
  | .rUint8 => .ok 255
  | .rUint16 => .ok 65535
  | .rUint32 => .ok 4294967295
  | .rUint64 => .ok (2 ^ 64)
  | .rFloat32 => .ok maxFloat32
  | .rFloat64 => .ok maxFloat64
  | _ => .err "TypeOverflowLimit" "not a numberic value type"

/-- Decimal digit list to a natural number. -/
def digitsVal (cs : List Char) : Nat :=
  cs.foldl (fun acc c => acc * 10 + (c.toNat - 48)) 0

/-- Splits a leading run of decimal digits. -/
def takeDigits : List Char → List Char × List Char
  | [] => ([], [])
  | c :: rest =>
    if c.isDigit then
      let (ds, r) := takeDigits rest
      (c :: ds, r)
    else ([], c :: rest)

/-- Model of `strconv.ParseFloat(s, 64)` restricted to plain decimal
mantissa/exponent syntax (no hex, Inf, NaN or underscore forms, none of
which the package's callers produce).  The value is kept as an exact
rational; inputs beyond `math.MaxFloat64` yield a range error (`none`),
matching `ParseFloat`'s non-nil error there. -/
def parseGoFloat (s : String) : Option ℚ :=
  let cs := s.toList
  let (sgn, cs) : ℚ × List Char :=
    match cs with
    | '+' :: r => (1, r)
    | '-' :: r => (-1, r)
    | r => (1, r)
  let (ip, cs) := takeDigits cs
  let (fp, cs) : List Char × List Char :=
    match cs with
    | '.' :: r => takeDigits r
    | r => ([], r)
  if ip.isEmpty && fp.isEmpty then none
  else
    let mant : ℚ := (digitsVal ip : ℚ) + (digitsVal fp : ℚ) / (10 : ℚ) ^ fp.length
    match cs with
    | [] =>
      let v := sgn * mant
      if v > maxFloat64 ∨ v < -maxFloat64 then none else some v
    | e :: r =>
      if e = 'e' ∨ e = 'E' then
        let (esgn, r) : Int × List Char :=
          match r with
          | '+' :: r2 => (1, r2)
          | '-' :: r2 => (-1, r2)
          | r2 => (1, r2)
        let (eds, r) := takeDigits r
        if eds.isEmpty ∨ ¬ r.isEmpty then none
        else
          let ex : Int := esgn * (digitsVal eds : Int)
          let v := sgn * mant * (10 : ℚ) ^ ex
          if v > maxFloat64 ∨ v < -maxFloat64 then none else some v
      else none

mutual

/-- Display model for `fmt.Sprint` (only its existence matters to the
claims; no theorem inspects a printed value). -/
def sprintGoVal : GoVal → String
  | .vnil => "<nil>"
  | .vstr s => s
  | .vbool b => if b then "true" else "false"
  | .vint _ i => toString i
  | .vuint _ n => toString n
  | .vfloat _ q => toString q.num ++ "/" ++ toString q.den
  | .vtime sec => "time(" ++ toString sec ++ ")"
  | .vuuid u => u
  | .varr xs => "[" ++ sprintGoList xs ++ "]"
  | .vbytes bs => bs
  | .vmap kvs => "map[" ++ sprintGoPairs kvs ++ "]"
  | .vstruct _ fs => "\x7b" ++ sprintGoFields fs ++ "\x7d"
  | .vptr _ => "ptr"
  | .vfunc => "func"

/-- Prints the elements of a slice. -/
def sprintGoList : List GoVal → String
  | [] => ""
  | [x] => sprintGoVal x
  | x :: rest => sprintGoVal x ++ " " ++ sprintGoList rest

/-- Prints the entries of a map. -/
def sprintGoPairs : List (GoVal × GoVal) → String
  | [] => ""
  | (k, v) :: rest => sprintGoVal k ++ ":" ++ sprintGoVal v ++ " " ++ sprintGoPairs rest

/-- Prints the field values of a struct. -/
def sprintGoFields : List (String × List (String × String) × GoVal) → String
  | [] => ""
  | (_, _, v) :: rest => sprintGoVal v ++ " " ++ sprintGoFields rest

end

/-- Embeds `StructToString`: structs are modelled without `String` methods, so the
method probe fails and the function prints the value. -/
def StructToString (s : GoVal) : Res String := do
  let st ← IsStruct s
  if st then return sprintGoVal s
  else return (← .err "StructToString" "expected struct type")

/-- Embeds `ToString`.  The pointer branch of the source calls `ToString(&a)` — the
address of its own parameter — so every pointer input recurses forever
(modelled by `Res.diverge`).  On nil input `IsStruct` panics. -/
def ToString (a : GoVal) : Res String := do
  let st ← IsStruct a
  if st then StructToString a
  else do
    let v ← IsValue a
    if v then return sprintGoVal a
    else do
      let p ← IsPtr a
      if p then (.diverge : Res String)
      else .err "ToString" "expected string, int, float, uint, bool, time, slice, map or struct type"

/-- Embeds `strings.ReplaceAll(s, ",", "")` at the character level. -/
def stripCommas (cs : List Char) : List Char :=
  cs.filter (fun c => c ≠ ',')

/-- Embeds `StringToFloat`: strips commas, interprets a parenthesised value as
negative, then parses.  After the comma strip the source reads `str[0]`:
on an empty string this panics with an index-out-of-range. -/
def StringToFloat (s : GoVal) : Res ℚ :=
  match s with
  | .vstr s0 =>
    let str := stripCommas s0.toList
    match str with
    | [] => .goPanic
    | c :: _ =>
      let str2 : List Char :=
        if c = '(' ∧ str.getLast? = some ')' then
          '-' :: (str.drop 1).dropLast
        else str
      match parseGoFloat (String.mk str2) with
      | none => .err "StringToFloat" "expected numeric string type"
      | some f => .ok f
  | _ => .err "StringToFloat" "expected string type"

/-- Embeds `IntToFloat` (exact in the model; the source's `float64(i)` rounds
beyond 2^53, a regime no theorem touches). -/
def IntToFloat (i : GoVal) : Res ℚ :=
  match i with
  | .vint _ v => .ok (v : ℚ)
  | _ => .err "IntToFloat" "expected int type"

/-- Embeds `FloatToFloat`. -/
def FloatToFloat (f : GoVal) : Res ℚ :=
  match f with
  | .vfloat _ v => .ok v
  | _ => .err "FloatToFloat" "expected float type"

/-- Embeds `UintToFloat`. -/
def UintToFloat (u : GoVal) : Res ℚ :=
  match u with
  | .vuint _ v => .ok (v : ℚ)
  | _ => .err "UintToFloat" "expected uint type"

/-- Embeds `BoolToFloat`. -/
def BoolToFloat (b : GoVal) : Res ℚ :=
  match b with
  | .vbool bb => .ok (if bb then 1 else 0)
  | _ => .err "BoolToFloat" "expected bool type"

/-- Embeds `TimeToFloat`: `float64(t.Unix())`. -/
def TimeToFloat (t : GoVal) : Res ℚ :=
  match t with
  | .vtime sec => .ok (sec : ℚ)
  | _ => .err "TimeToFloat" "expected time.Time type"

/-- Embeds `ToFloat` dispatcher. -/
def ToFloat (a : GoVal) : Res ℚ :=
  match a with
  | .vstr _ => StringToFloat a
  | .vint _ _ => IntToFloat a
  | .vfloat _ _ => FloatToFloat a
  | .vuint _ _ => UintToFloat a
  | .vbool _ => BoolToFloat a
  | .vtime _ => TimeToFloat a
  | _ => .err "ToFloat" "expected string, numeric, bool, or time type"

/-- Embeds `ConversionOverflow`: converts `a` to float and compares against the
limit of kind `t`; any error in either step counts as overflow.  Note the
comparison is `f > tLim` on the signed value — there is no lower-bound or
magnitude check. -/
def ConversionOverflow (t : RKind) (a : GoVal) : Res Bool :=
  match ToFloat a with
  | .goPanic => .goPanic
  | .diverge => .diverge
  | .err _ _ => .ok true
  | .ok f =>
    match TypeOverflowLimit t with
    | .ok tLim => .ok (decide (f > tLim))
    | _ => .ok true

/-- Embeds `StringToInt`: parse via `StringToFloat`, overflow-check against `int`,
then `int(math.Round(f))`. -/
def StringToInt (s : GoVal) : Res Int :=
  match StringToFloat s with
  | .goPanic => .goPanic
  | .diverge => .diverge
  | .err _ _ => .err "StringToInt" "expected numeric like string type"
  | .ok f =>
    match ConversionOverflow .rInt (.vfloat .f64 f) with
    | .ok true => .err "StringToInt" "overflow error"
    | .ok false => .ok (intWrap 64 (goRound f))
    | .goPanic => .goPanic
    | _ => .diverge

/-- Embeds `IntToInt`. -/
def IntToInt (i : GoVal) : Res Int :=
  match i with
  | .vint _ v => .ok v
  | _ => .err "IntToInt" "expected int type"

/-- Embeds `FloatToInt`: overflow-check the raw float against `int`, then
`int(math.Round(f))`. -/
def FloatToInt (f : GoVal) : Res Int :=
  match f with
  | .vfloat _ v =>
    match ConversionOverflow .rInt f with
    | .ok true => .err "FloatToInt" "overflow error"
    | .ok false => .ok (intWrap 64 (goRound v))
    | .goPanic => .goPanic
    | _ => .diverge
  | _ => .err "FloatToInt" "expected float type"

/-- Embeds `UintToInt`. -/
def UintToInt (u : GoVal) : Res Int :=
  match u with
  | .vuint _ v =>
    match ConversionOverflow .rInt u with
    | .ok true => .err "UintToInt" "overflow error"
    | .ok false => .ok (intWrap 64 (v : Int))
    | .goPanic => .goPanic
    | _ => .diverge
  | _ => .err "UintToInt" "expected uint type"

/-- Embeds `BoolToInt`. -/
def BoolToInt (b : GoVal) : Res Int :=
  match b with
  | .vbool bb => .ok (if bb then 1 else 0)
  | _ => .err "BoolToInt" "expected bool type"

/-- Embeds `TimeToInt`: `int(t.Unix())`. -/
def TimeToInt (t : GoVal) : Res Int :=
  match t with
  | .vtime sec => .ok sec
  | _ => .err "TimeToInt" "expected time.Time type"

/-- Embeds `ToInt` dispatcher. -/
def ToInt (a : GoVal) : Res Int :=
  match a with
  | .vstr _ => StringToInt a
  | .vint _ _ => IntToInt a
  | .vfloat _ _ => FloatToInt a
  | .vuint _ _ => UintToInt a
  | .vbool _ => BoolToInt a
  | .vtime _ => TimeToInt a
  | _ => .err "ToInt" "expected string, numeric, bool, or time type"

/-- Embeds `uintIt`: the shared helper of `IntToUint` and `FloatToUint` — overflow
check against `uint`, then reject negatives. -/
def uintIt (i : Int) : Res Nat :=
  match ConversionOverflow .rUint (.vint .i i) with
  | .ok true => .err "IntToUint" "overflow error"
  | .ok false =>
    if i ≥ 0 then .ok i.toNat
    else .err "ToUint" "expected unsigned number type"
  | .goPanic => .goPanic
  | _ => .diverge

/-- Embeds `StringToUint`: parse, reject negatives, overflow-check against `uint`,
then `uint(math.Round(f))`. -/
def StringToUint (s : GoVal) : Res Nat :=
  match StringToFloat s with
  | .goPanic => .goPanic
  | .diverge => .diverge
  | .err _ _ => .err "StringToUint" "expected unsigned numeric string type"
  | .ok f =>
    if f < 0 then .err "StringToUint" "expected unsigned numeric string type"
    else
      match ConversionOverflow .rUint (.vfloat .f64 f) with
      | .ok true => .err "StringToUint" "overflow error"
      | .ok false => .ok (uintWrap 64 (goRound f))
      | .goPanic => .goPanic
      | _ => .diverge

/-- Embeds `IntToUint`. -/
def IntToUint (i : GoVal) : Res Nat :=
  match i with
  | .vint _ v => uintIt v
  | _ => .err "IntToUint" "expected int type"

/-- Embeds `FloatToUint`: note the source passes `int(ff)` — truncation toward
zero, not `math.Round` — to `uintIt`. -/
def FloatToUint (f : GoVal) : Res Nat :=
  match f with
  | .vfloat _ v => uintIt (intWrap 64 (truncQ v))
  | _ => .err "FloatToUint" "expected unsigned float type"

/-- Embeds `UintToUint`. -/
def UintToUint (u : GoVal) : Res Nat :=
  match u with
  | .vuint _ v => .ok v
  | _ => .err "UintToUint" "expected uint type"

/-- Embeds `BoolToUint`. -/
def BoolToUint (b : GoVal) : Res Nat :=
  match b with
  | .vbool bb => .ok (if bb then 1 else 0)
  | _ => .err "BoolToUint" "expected bool type"

/-- Embeds `TimeToUint`: `uint(t.Unix())`. -/
def TimeToUint (t : GoVal) : Res Nat :=
  match t with
  | .vtime sec => .ok (uintWrap 64 sec)
  | _ => .err "TimeToUint" "expected time.Time type"

/-- Embeds `ToUint` dispatcher. -/
def ToUint (a : GoVal) : Res Nat :=
  match a with
  | .vstr _ => StringToUint a
  | .vint _ _ => IntToUint a
  | .vfloat _ _ => FloatToUint a
  | .vuint _ _ => UintToUint a
  | .vbool _ => BoolToUint a
  | .vtime _ => TimeToUint a
  | _ => .err "ToUint" "expected string, numeric, bool, or time type"

/-- Embeds `strings.ToLower` at the character level (ASCII, as the source's
comparisons need). -/
def lowerStr (s : String) : String := String.mk (s.toList.map Char.toLower)

/-- Embeds `StringToBool`. -/
def StringToBool (s : GoVal) : Res Bool :=
  match s with
  | .vstr s0 =>
    let ss := lowerStr s0
    if ss = "t" ∨ ss = "true" ∨ ss = "1" then .ok true
    else if ss = "f" ∨ ss = "false" ∨ ss = "0" then .ok false
    else .err "StringToBool" "expected string of bool type"
  | _ => .err "StringToBool" "expected string of bool type"

/-- Embeds `intToBool` helper. -/
def intToBool (i : Int) : Res Bool :=
  if i = 1 then .ok true
  else if i = 0 then .ok false
  else .err "IntToBool" "expected 0 or 1 int type"

/-- Embeds `IntToBool`. -/
def IntToBool (i : GoVal) : Res Bool :=
  match i with
  | .vint _ v => intToBool v
  | _ => .err "IntToBool" "expected int type"

/-- Embeds `FloatToBool`: truncates, then 0/1 check. -/
def FloatToBool (f : GoVal) : Res Bool :=
  match f with
  | .vfloat _ v => intToBool (intWrap 64 (truncQ v))
  | _ => .err "FloatToBool" "expected 0 or 1 float type"

/-- Embeds `UintToBool`. -/
def UintToBool (u : GoVal) : Res Bool :=
  match u with
  | .vuint _ v => intToBool (intWrap 64 (v : Int))
  | _ => .err "UintToBool" "expected 0 or 1 uint type"

/-- Embeds `BoolToBool`. -/
def BoolToBool (b : GoVal) : Res Bool :=
  match b with
  | .vbool bb => .ok bb
  | _ => .err "BoolToBool" "expected bool type"

/-- Embeds `ToBool` dispatcher. -/
def ToBool (a : GoVal) : Res Bool :=
  match a with
  | .vstr _ => StringToBool a
  | .vint _ _ => IntToBool a
  | .vfloat _ _ => FloatToBool a
  | .vuint _ _ => UintToBool a
  | .vbool _ => BoolToBool a
  | _ => .err "ToBool" "expected string, numeric or bool type"

/-- Embeds `StrictlyTo`: strict-width conversion keyed by the exemplar `t`.
Three remarks the theorems depend on, each present in the source:
* in the numeric case `v, err := ToFloat(a)` re-declares `err`, so the
  outer `err` stays nil and failure is detected only through `len(m) == 0`,
  which also swallows the distinct overflow message;
* the result map keys for `reflect.Uint`, `reflect.Uint32` and
  `reflect.Uint64` are written as `reflect.Int`, `reflect.Int32` and
  `reflect.Int64`;
* `int(v)` etc. truncate the float intermediate (no rounding). -/
def StrictlyTo (t a : GoVal) : Res (List (RKind × GoVal)) :=
  match TypeOf t with
  | .goPanic => .goPanic
  | .diverge => .diverge
  | .err fn m => .err fn m
  | .ok ty =>
    match ty with
    | .String =>
      match ToString a with
      | .ok s => .ok [(.rString, .vstr s)]
      | .err _ _ => .err "To" "could not convert"
      | .goPanic => .goPanic
      | .diverge => .diverge
    | .Bool =>
      match ToBool a with
      | .ok b => .ok [(.rBool, .vbool b)]
      | .err _ _ => .err "To" "could not convert"
      | .goPanic => .goPanic
      | .diverge => .diverge
    | .Int | .Float | .Uint =>
      match ToFloat a with
      | .goPanic => .goPanic
      | .diverge => .diverge
      | .err _ _ => .err "To" "could not convert"
      | .ok v =>
        let k := rkindOfD t
        match ConversionOverflow k a with
        | .goPanic => .goPanic
        | .diverge => .diverge
        | .err _ _ => .diverge
        | .ok true => .err "To" "could not convert"
        | .ok false =>
          let m : List (RKind × GoVal) :=
            match k with
            | .rInt => [(.rInt, .vint .i (intWrap 64 (truncQ v)))]
            | .rInt8 => [(.rInt8, .vint .i8 (intWrap 8 (truncQ v)))]
            | .rInt16 => [(.rInt16, .vint .i16 (intWrap 16 (truncQ v)))]
            | .rInt32 => [(.rInt32, .vint .i32 (intWrap 32 (truncQ v)))]
            | .rInt64 => [(.rInt64, .vint .i64 (intWrap 64 (truncQ v)))]
            | .rUint => [(.rInt, .vuint .u (uintWrap 64 (truncQ v)))]
            | .rUint8 => [(.rUint8, .vuint .u8 (uintWrap 8 (truncQ v)))]
            | .rUint16 => [(.rUint16, .vuint .u16 (uintWrap 16 (truncQ v)))]
            | .rUint32 => [(.rInt32, .vuint .u32 (uintWrap 32 (truncQ v)))]
            | .rUint64 => [(.rInt64, .vuint .u64 (uintWrap 64 (truncQ v)))]
            | .rFloat32 => [(.rFloat32, .vfloat .f32 v)]
            | .rFloat64 => [(.rFloat64, .vfloat .f64 v)]
            | _ => []
          if m.isEmpty then .err "To" "could not convert" else .ok m
    | _ => .err "To" "could not convert"

/-- A separator character of the `[_ \n\t]` regular expression. -/
def isSepChar (c : Char) : Bool := c = '_' ∨ c = ' ' ∨ c = '\n' ∨ c = '\t'

/-- Splits on separator characters keeping empty parts, the behaviour of
`regexp.MustCompile` + `Split(s, -1)`. -/
def splitSepsAux : List Char → List Char → List String
  | [], cur => [String.mk cur.reverse]
  | c :: rest, cur =>
    if isSepChar c then String.mk cur.reverse :: splitSepsAux rest []
    else splitSepsAux rest (c :: cur)

/-- Splits a string on `[_ \n\t]`. -/
def splitSeps (s : String) : List String := splitSepsAux s.toList []

/-- Embeds `strings.ToUpper(p[:1]) + p[1:]` — the `p[:1]` slice panics when `p` is
empty. -/
def capFirst (p : String) : Res String :=
  match p.toList with
  | [] => .goPanic
  | c :: rest => .ok (String.mk (c.toUpper :: rest))

/-- Embeds `toCamelCase`: split on `[_ \n\t]`, capitalize the parts after the
first, join with no separator. -/
def toCamelCase (s : String) : Res String :=
  match splitSeps s with
  | [] => .diverge
  | first :: rest => do
    let caps ← rest.mapM capFirst
    return String.join (first :: caps)

/-- Embeds `ToPascalString`: camel-case then uppercase the first character. -/
def ToPascalString (s : String) : Res String := do
  let c ← toCamelCase s
  capFirst c

/-- Embeds `ToCamelString`: camel-case then lowercase the first character. -/
def ToCamelString (s : String) : Res String := do
  let c ← toCamelCase s
  match c.toList with
  | [] => .goPanic
  | ch :: rest => return String.mk (ch.toLower :: rest)

/-- The byte loop of `toSnakeCase`, carrying the output `r` and the
in-word flag `w`. -/
def toSnakeAux (d : String) (c : Bool) : List Char → String → Bool → String
  | [], r, _ => r
  | ch :: rest, r, w =>
    if isSepChar ch then
      if w then toSnakeAux d c rest (r ++ d) false
      else toSnakeAux d c rest r w
    else
      let r2 := if c ∧ ch.isUpper ∧ w then r ++ d ++ ch.toString else r ++ ch.toString
      toSnakeAux d c rest r2 true

/-- Embeds `toSnakeCase`. -/
def toSnakeCase (s : String) (d : String) (c : Bool) : String :=
  let r := toSnakeAux d c s.toList "" false
  if c then lowerStr r else r

/-- Embeds `ToSnakeString`. -/
def ToSnakeString (s : String) : String := toSnakeCase s "_" true

/-- Embeds `StringFormat.Format` — note the source sends `Phrase` to
`ToSnakeString` as well. -/
def StringFormat.Format (f : StringFormat) (s : String) : Res String :=
  match f with
  | .Pascal => ToPascalString s
  | .Camel => ToCamelString s
  | .Snake => .ok (ToSnakeString s)
  | .Phrase => .ok (ToSnakeString s)
  | .None => .ok s

/-- Unix second of the zero `time.Time`. -/
def goZeroTimeSec : Int := -62135596800

/-- Embeds `reflect.ValueOf(a).Len()` for the length-bearing kinds. -/
def reflectLen : GoVal → Nat
  | .varr xs => xs.length
  | .vbytes bs => bs.length
  | .vuuid _ => 16
  | .vmap kvs => kvs.length
  | _ => 0

mutual

/-- Model of `reflect.ValueOf(a).IsZero()` for the kinds reachable through
`IsEmpty`'s default branch (a nil slice/map is modelled as the empty one). -/
def IsZeroGo : GoVal → Bool
  | .vnil => true
  | .vstr s => s = ""
  | .vbool b => !b
  | .vint _ i => i = 0
  | .vuint _ n => n = 0
  | .vfloat _ q => q = 0
  | .vtime sec => sec = goZeroTimeSec
  | .vuuid u => u = "00000000-0000-0000-0000-000000000000"
  | .varr xs => xs.isEmpty
  | .vbytes bs => bs = ""
  | .vmap kvs => kvs.isEmpty
  | .vstruct _ fs => IsZeroFields fs
  | .vptr p => match p with | .vnil => true | _ => false
  | .vfunc => true

/-- All struct fields zero. -/
def IsZeroFields : List (String × List (String × String) × GoVal) → Bool
  | [] => true
  | (_, _, v) :: rest => IsZeroGo v && IsZeroFields rest

end

/-- Embeds `IsEmpty`, embedded with a fuel parameter because its, claimed,
termination is under scrutiny: the pointer case of the source recurses as
`IsEmpty(&a)` — on the address of its own parameter — so each recursive
call receives a pointer again.  `none` means the fuel ran out, i.e. the
call has not returned within that many recursive steps. -/
def IsEmptyFuel : Nat → GoVal → Option (Res Bool)
  | 0, _ => none
  | fuel + 1, a =>
    match a with
    | .vnil => some (.ok true)
    | _ =>
      if IsTime a then
        some (.ok (match a with | .vtime sec => decide (sec = goZeroTimeSec) | _ => false))
      else
        match IsArray a, IsMap a with
        | .ok ar, .ok mp =>
          if ar || mp then some (.ok (decide (reflectLen a = 0)))
          else
            match IsPtr a with
            | .ok true => IsEmptyFuel fuel (.vptr a)
            | .ok false => some (.ok (IsZeroGo a))
            | _ => some .goPanic
        | _, _ => some .goPanic

/-- A struct field as carried by `GoVal.vstruct`: name, tag table, value. -/
abbrev GoField := String × List (String × String) × GoVal

mutual

/-- Embeds `reflect.New(reflect.TypeOf(s)).Elem()`: the zero value of the type of
`s`; interface-typed fields are zeroed to nil, nil slices/maps are modelled
as empty ones. -/
def zeroOf : GoVal → GoVal
  | .vnil => .vnil
  | .vstr _ => .vstr ""
  | .vbool _ => .vbool false
  | .vint w _ => .vint w 0
  | .vuint w _ => .vuint w 0
  | .vfloat w _ => .vfloat w 0
  | .vtime _ => .vtime goZeroTimeSec
  | .vuuid _ => .vuuid "00000000-0000-0000-0000-000000000000"
  | .varr _ => .varr []
  | .vbytes _ => .vbytes ""
  | .vmap _ => .vmap []
  | .vstruct n fs => .vstruct n (zeroFields fs)
  | .vptr _ => .vptr .vnil
  | .vfunc => .vfunc

/-- Zeroes every field value. -/
def zeroFields : List GoField → List GoField
  | [] => []
  | (n, tg, v) :: rest => (n, tg, zeroOf v) :: zeroFields rest

end

/-- Inserts field position `i` under key `k`, appending to an existing
entry's index list (the source's `index[k] = append(index[k], i)`). -/
def idxInsert (idx : List (String × List Nat)) (k : String) (i : Nat) :
    List (String × List Nat) :=
  match idx with
  | [] => [(k, [i])]
  | (k2, l) :: rest =>
    if k2 = k then (k2, l ++ [i]) :: rest else (k2, l) :: idxInsert rest k i

/-- Embeds `reflectStruct`: accepts a struct (possibly already a `reflect.Value`)
and errors otherwise; a nil input yields `reflect.Invalid`, not a panic. -/
def reflectStruct (s : GoVal) : Res GoVal :=
  match s with
  | .vstruct _ _ => .ok s
  | _ => .err "reflectStruct" "expected struct type"

/-- Embeds `StructTagIndex`: tag value → field positions; `ok` is false when `s`
is not a struct, the tag namespace is empty, or no field carries it. -/
def StructTagIndex (s : GoVal) (t : String) : List (String × List Nat) × Bool :=
  match s with
  | .vstruct _ fs =>
    if t = "" then ([], false)
    else
      let step := fun (acc : List (String × List Nat) × Bool × Nat) (f : GoField) =>
        match List.lookup t f.2.1 with
        | some k => (idxInsert acc.1 k acc.2.2, true, acc.2.2 + 1)
        | none => (acc.1, acc.2.1, acc.2.2 + 1)
      let r := fs.foldl step ([], false, 0)
      (r.1, r.2.1)
  | _ => ([], false)

/-- Embeds `StructFieldNameIndex`: field name → field positions; `ok` is false
when `s` is not a struct or has no fields. -/
def StructFieldNameIndex (s : GoVal) : List (String × List Nat) × Bool :=
  match s with
  | .vstruct _ fs =>
    let step := fun (acc : List (String × List Nat) × Bool × Nat) (f : GoField) =>
      (idxInsert acc.1 f.1 acc.2.2, true, acc.2.2 + 1)
    let r := fs.foldl step ([], false, 0)
    (r.1, r.2.1)
  | _ => ([], false)

/-- The index `MapToStruct` looks map keys up in: the tag index when a tag
namespace is given, the field-name index otherwise. -/
def mapToStructIndex (sv : GoVal) (t : String) : List (String × List Nat) × Bool :=
  if t ≠ "" then StructTagIndex sv t else StructFieldNameIndex sv

/-- Embeds `reflect.TypeOf(mv) == fv.Type()`: type identity, compared on the
shapes the model tracks (widths, struct names; element types of containers
are not tracked and no theorem exercises them). -/
def typeEq : GoVal → GoVal → Bool
  | .vnil, .vnil => true
  | .vstr _, .vstr _ => true
  | .vbool _, .vbool _ => true
  | .vint w _, .vint w2 _ => w = w2
  | .vuint w _, .vuint w2 _ => w = w2
  | .vfloat w _, .vfloat w2 _ => w = w2
  | .vtime _, .vtime _ => true
  | .vuuid _, .vuuid _ => true
  | .varr _, .varr _ => true
  | .vbytes _, .vbytes _ => true
  | .vmap _, .vmap _ => true
  | .vstruct n _, .vstruct n2 _ => n = n2
  | .vptr _, .vptr _ => true
  | .vfunc, .vfunc => true
  | _, _ => false

/-- Replaces the value of field `fi`, keeping name and tags. -/
def setFieldVal (fs : List GoField) (fi : Nat) (v : GoVal) : List GoField :=
  match fs, fi with
  | [], _ => []
  | (n, tg, _) :: rest, 0 => (n, tg, v) :: rest
  | f0 :: rest, fi2 + 1 => f0 :: setFieldVal rest fi2 v

mutual

/-- Embeds `MapToStruct`: writes map `m` onto (a fresh zero value of) struct `s`,
formatting keys with `f` and matching them against tag `t` or field names.
A key with no matching field is a terminal error whose message carries the
formatted key.  A non-string map key panics (hard type assertion). -/
def MapToStruct (m s : GoVal) (f : StringFormat) (t : String) : Res GoVal :=
  match IsMap m with
  | .goPanic => .goPanic
  | .diverge => .diverge
  | .err fn ms => .err fn ms
  | .ok false => .err "MapToStruct" "expected map type"
  | .ok true =>
    match reflectStruct s with
    | .err _ _ => .err "MapToStruct" "expected struct type"
    | .goPanic => .goPanic
    | .diverge => .diverge
    | .ok _ =>
      match s, m with
      | .vstruct sname fs0, .vmap kvs =>
        let fs := zeroFields fs0
        let sv := GoVal.vstruct sname fs
        let io := mapToStructIndex sv t
        if ¬ io.2 then
          if t ≠ "" then .err "MapToStruct" "expected valid tag string type"
          else .err "MapToStruct" "struct provided has no fields"
        else
          match mtsEntries kvs fs io.1 f t with
          | .ok fs2 => .ok (.vstruct sname fs2)
          | .err fn ms => .err fn ms
          | .goPanic => .goPanic
          | .diverge => .diverge
      | _, _ => .diverge
termination_by sizeOf m

/-- The `mi.Next()` loop of `MapToStruct` over the remaining entries,
threading the current field values. -/
def mtsEntries (kvs : List (GoVal × GoVal)) (fs : List GoField)
    (idx : List (String × List Nat)) (f : StringFormat) (t : String) :
    Res (List GoField) :=
  match kvs with
  | [] => .ok fs
  | (k, v) :: rest =>
    match mtsSetField k v fs idx f t with
    | .ok fs2 => mtsEntries rest fs2 idx f t
    | .err fn ms => .err fn ms
    | .goPanic => .goPanic
    | .diverge => .diverge
termination_by sizeOf kvs

/-- Processing of one map entry of `MapToStruct`: format the key, look it
up, and populate the selected field according to the kind switch of the
source. -/
def mtsSetField (k v : GoVal) (fs : List GoField)
    (idx : List (String × List Nat)) (f : StringFormat) (t : String) :
    Res (List GoField) :=
  match k with
  | .vstr ks =>
    match StringFormat.Format f ks with
    | .goPanic => .goPanic
    | .diverge => .diverge
    | .err fn ms => .err fn ms
    | .ok n =>
      match List.lookup n idx with
      | none => .err "MapToStruct" (" '" ++ n ++ "' not a valid field in struct")
      | some tfi =>
        match tfi with
        | [] => .goPanic
        | fi :: _ =>
          match fs.get? fi with
          | none => .goPanic
          | some (_, _, fo) =>
            match fo with
            | .vnil => .ok (setFieldVal fs fi v)
            | _ =>
              match v with
              | .vnil => .ok fs
              | mv =>
                match TypeOf mv, TypeOf fo with
                | .ok mt, .ok fot =>
                  match fot with
                  | .Map =>
                    if mt = .Map then .ok (setFieldVal fs fi mv)
                    else .err "MapToStruct" "expected map type"
                  | .Struct =>
                    if mt = .Map then
                      match MapToStruct mv fo f t with
                      | .ok fnew => .ok (setFieldVal fs fi fnew)
                      | .err fn ms => .err fn ms
                      | .goPanic => .goPanic
                      | .diverge => .diverge
                    else if typeEq mv fo then .ok (setFieldVal fs fi mv)
                    else .err "MapToStruct" "expected map type"
                  | .String | .Bool | .Int | .Float | .Uint =>
                    match StrictlyTo fo mv with
                    | .err _ _ => .err "MapToStruct" (typeNames fot)
                    | .goPanic => .goPanic
                    | .diverge => .diverge
                    | .ok iv =>
                      match List.lookup (rkindOfD fo) iv with
                      | none => .goPanic
                      | some w => .ok (setFieldVal fs fi w)
                  | _ =>
                    if fot = mt then .ok (setFieldVal fs fi mv)
                    else .err "MapToStruct" (typeNames fot)
                | _, _ => .goPanic
  | _ => .goPanic
termination_by sizeOf k + sizeOf v

end

mutual

/-- Embeds `MapToMap`: deep copy of a map, normalizing map-typed values
recursively.  Reading `Kind()` of a nil value panics. -/
def MapToMap (a : GoVal) : Res (List (GoVal × GoVal)) :=
  match a with
  | .vmap kvs => m2mEntries kvs
  | .vnil => .goPanic
  | _ => .err "MapToMap" "expected map type"
termination_by sizeOf a

/-- The iteration of `MapToMap`, in insertion order. -/
def m2mEntries (kvs : List (GoVal × GoVal)) : Res (List (GoVal × GoVal)) :=
  match kvs with
  | [] => .ok []
  | (k, v) :: rest =>
    match reflectKindOf v with
    | none => .goPanic
    | some rk =>
      if rk = .rMap then
        match MapToMap v with
        | .ok l =>
          match m2mEntries rest with
          | .ok tail => .ok ((k, .vmap l) :: tail)
          | r => r
        | .err _ _ =>
          -- `v, _ = MapToMap(...)`: a returned error is discarded and the
          -- empty map is kept (unreachable here: the value is a map)
          match m2mEntries rest with
          | .ok tail => .ok ((k, .vmap []) :: tail)
          | r => r
        | .goPanic => .goPanic
        | .diverge => .diverge
      else
        match m2mEntries rest with
        | .ok tail => .ok ((k, v) :: tail)
        | r => r
termination_by sizeOf kvs

end

/-- Outcome of the external `json.Unmarshal` call inside `JsonToMap`:
`failure` carries whatever entries the destination map holds after the
failed parse (empty or partial). -/
inductive UnmarshalOutcome where
  | success (entries : List (String × GoVal))
  | failure (entries : List (String × GoVal))
deriving Repr

/-- Embeds `JsonToMap`, with the outcome of the external `json.Unmarshal` call
passed in.  The source builds a `paramTypeError` on unmarshal failure but
never returns it (the statement lacks a `return`), so the function falls
through to `MapToMap` and reports success; the error of `MapToMap` is also
discarded (`ma, _ :=`). -/
def JsonToMap (j : GoVal) (unmarshal : UnmarshalOutcome) : Res (List (GoVal × GoVal)) :=
  match j with
  | .vbytes _ =>
    let m : List (String × GoVal) :=
      match unmarshal with
      | .success es => es
      | .failure es => es
    match MapToMap (.vmap (m.map fun kv => (.vstr kv.1, kv.2))) with
    | .ok l => .ok l
    | .err _ _ => .ok []
    | .goPanic => .goPanic
    | .diverge => .diverge
  | _ => .err "JsonToMap" "expected json bytes type"

/-- Duplicate synthesized field names (on which `reflect.StructOf`
panics). -/
def dupNames : List GoField → Bool
  | [] => false
  | (n, _, _) :: rest => rest.any (fun f => f.1 = n) || dupNames rest

mutual

/-- Embeds `MapToReflectStruct`: synthesizes a struct from a map.  Keys must be
strings; each field name is `ToPascalString` of the key; map-typed values
are recursively synthesized first (their error, if any, is discarded by
`v, _ =`); when a tag namespace is given the original key is stored under
it. -/
def MapToReflectStruct (m : GoVal) (t : String) : Res GoVal :=
  match IsMap m with
  | .goPanic => .goPanic
  | .diverge => .diverge
  | .err fn ms => .err fn ms
  | .ok false => .err "MapToStruct" "expected map type"
  | .ok true =>
    match m with
    | .vmap kvs =>
      match mtrsFields kvs t with
      | .ok fs =>
        if dupNames fs then .goPanic
        else .ok (.vstruct "" fs)
      | .err fn ms => .err fn ms
      | .goPanic => .goPanic
      | .diverge => .diverge
    | _ => .diverge
termination_by sizeOf m

/-- The field-building loop of `MapToReflectStruct`. -/
def mtrsFields (kvs : List (GoVal × GoVal)) (t : String) : Res (List GoField) :=
  match kvs with
  | [] => .ok []
  | (k, v) :: rest =>
    match k with
    | .vstr ks =>
      match ToPascalString ks with
      | .goPanic => .goPanic
      | .diverge => .diverge
      | .err fn ms => .err fn ms
      | .ok mk =>
        match IsMap v with
        | .goPanic => .goPanic
        | .diverge => .diverge
        | .err fn ms => .err fn ms
        | .ok isM =>
          let v2res : Res GoVal :=
            if isM then
              match MapToReflectStruct v t with
              | .ok sv => .ok sv
              | .err _ _ => .ok (.vstruct "" [])  -- error discarded; zero Value kept
              | .goPanic => .goPanic
              | .diverge => .diverge
            else .ok v
          match v2res with
          | .ok v2 =>
            match mtrsFields rest t with
            | .ok tail =>
              .ok ((mk, if t ≠ "" then [(t, ks)] else [], v2) :: tail)
            | r => r
          | .err fn ms => .err fn ms
          | .goPanic => .goPanic
          | .diverge => .diverge
    | _ => .err "MapToStruct" "expected map key to be a string type"
termination_by sizeOf kvs

end

/-- Embeds `ClassItem` of the Class code (`Type` is `Ty` here; the `Class *Class`
backpointer is modelled as the flag `hasClass`). -/
structure ClassItem where
  Name : String
  Ty : GoType
  Tag : String := ""
  Value : Option GoVal := none
  hasClass : Bool := false
  set : Bool := false
deriving Repr

/-- Embeds `Class`: an ordered, named collection of typed slots (the `List` field
of the source is declared last here so its name does not shadow the list
type of the other fields). -/
structure Class where
  Name : String := ""
  Items : List ClassItem := []
  inst : Bool := false
  List : List String := []
deriving Repr

/-- Embeds `Class.Append`: rejected while the class is not instantiated; otherwise
requires a non-empty item name and a valid type. -/
def Class.Append (c : Class) (i : ClassItem) : Res Class :=
  if ¬ c.inst then .err "Class.Append" "target class has not been instantiated"
  else if i.Name ≠ "" ∧ i.Ty ≠ .Invalid then
    let i2 := { i with hasClass := true, set := i.Value.isSome || i.set }
    .ok { c with Items := c.Items ++ [i2], List := c.List ++ [i.Name] }
  else .err "Class.Append" "ClassItem missing Name and/or Type"

/-- The append loop of `CreateClass`. -/
def appendItems (c : Class) : List ClassItem → Res Class
  | [] => .ok c
  | i :: rest =>
    match c.Append i with
    | .ok c2 => appendItems c2 rest
    | r => r

/-- Embeds `CreateClass`: checks the name and item list, appends every item via
`Class.Append`, and only afterwards sets `Name` and `inst` — note the
appends therefore run against a class whose `inst` flag is still false. -/
def CreateClass (n : String) (is2 : List ClassItem) : Res Class :=
  let c : Class := {}
  if n = "" then .err "CreateClass" "missing class name"
  else if is2.isEmpty then .err "CreateClass" "missing class items"
  else
    match appendItems c is2 with
    | .ok c2 => .ok { c2 with Name := n, inst := true }
    | _ => .err "CreateClass" "class item missing values"

/-- An exemplar/limit/one-beyond table for the widths whose limit is
exactly representable in float64: at the exact limit the strict conversion
must succeed, one unit beyond it must fail. -/
def smallWidthBoundary : List (GoVal × ℚ × ℚ) :=
  [(.vint .i8 0, 127, 128), (.vint .i16 0, 32767, 32768),
   (.vint .i32 0, 2147483647, 2147483648),
   (.vuint .u8 0, 255, 256), (.vuint .u16 0, 65535, 65536),
   (.vuint .u32 0, 4294967295, 4294967296)]

/-- Checks both sides of the overflow boundary for every small width. -/
def smallBoundaryCheck : Bool :=
  smallWidthBoundary.all fun p =>
    (StrictlyTo p.1 (.vfloat .f64 p.2.1)).isOk && !(StrictlyTo p.1 (.vfloat .f64 p.2.2)).isOk

/-- A 64-bit two's-complement wrap is the identity on in-range values. -/
theorem intWrap64_eq (i : Int) (hl : -(2 ^ 63) ≤ i) (hr : i < 2 ^ 63) :
    intWrap 64 i = i := by
  unfold intWrap
  norm_num
  omega

/-- A 64-bit unsigned wrap is `toNat` on in-range values. -/
theorem uintWrap64_eq (i : Int) (hl : 0 ≤ i) (hr : i < 2 ^ 64) :
    uintWrap 64 i = i.toNat := by
  unfold uintWrap
  norm_num
  omega

/-- Rounding a non-negative rational is non-negative. -/
theorem goRound_nonneg (q : ℚ) (h : 0 ≤ q) : 0 ≤ goRound q := by
  unfold goRound
  rw [if_pos h]
  exact Int.floor_nonneg.mpr (by linarith)

/-- C2: the claim says every classification/conversion operation returns a
result or an error and never panics; in fact `TypeOf` and `ToString` panic
on the nil input (`IsArray`/`IsStruct` call `Kind()` on a nil
`reflect.Type`), and `StringToFloat` — hence the `ToFloat`, `ToInt` and
`ToUint` dispatchers — panics on the empty string (`str[0]` on an empty
string after the comma strip). -/
theorem classification_conversion_panics :
    TypeOf .vnil = .goPanic ∧ ToString .vnil = .goPanic ∧
    StringToFloat (.vstr "") = .goPanic ∧ ToFloat (.vstr "") = .goPanic ∧
    ToInt (.vstr "") = .goPanic ∧ ToUint (.vstr "") = .goPanic :=
  ⟨rfl, rfl, rfl, rfl, rfl, rfl⟩

/-- C3: for the in-range input `float64(1)` and the `uint`, `uint32` and
`uint64` exemplars, `StrictlyTo` succeeds with the exact-width value but
stores it under the keys `reflect.Int`, `reflect.Int32` and
`reflect.Int64` — not the reflect kind of the exemplar's own type
(`reflect.Uint` etc.), which the claim, the function's own usage example
and its `MapToStruct` caller all expect. -/
theorem StrictlyTo_uint_key_mismatch :
    StrictlyTo (.vuint .u 0) (.vfloat .f64 1) = .ok [(.rInt, .vuint .u 1)] ∧
    StrictlyTo (.vuint .u32 0) (.vfloat .f64 1) = .ok [(.rInt32, .vuint .u32 1)] ∧
    StrictlyTo (.vuint .u64 0) (.vfloat .f64 1) = .ok [(.rInt64, .vuint .u64 1)] ∧
    rkindOfD (.vuint .u 0) = .rUint ∧ rkindOfD (.vuint .u32 0) = .rUint32 ∧
    rkindOfD (.vuint .u64 0) = .rUint64 :=
  ⟨rfl, rfl, rfl, rfl, rfl, rfl⟩

/-- C7: on a byte payload that fails to unmarshal, `JsonToMap` reports
success carrying the (empty or partial) destination map — the
`paramTypeError` it builds in the failure branch is never returned. -/
theorem JsonToMap_malformed_reports_success :
    JsonToMap (.vbytes "not json") (.failure []) = .ok [] ∧
    JsonToMap (.vbytes "\x7b\"a\":1,oops") (.failure [("a", .vfloat .f64 1)])
      = .ok [(.vstr "a", .vfloat .f64 1)] := by
  constructor
  · simp [JsonToMap, MapToMap, m2mEntries]
  · simp [JsonToMap, MapToMap, m2mEntries, reflectKindOf]

/-- C10: `CreateClass` appends the given items before setting the `inst`
flag, and `Class.Append` rejects any class whose `inst` flag is unset, so
explicit construction with a valid name and a valid, non-empty descriptor
list always returns the "class item missing values" error instead of the
instantiated container. -/
theorem CreateClass_never_succeeds :
    CreateClass "Person" [{Name := "age", Ty := .Int}]
      = .err "CreateClass" "class item missing values" ∧
    Class.Append {} {Name := "age", Ty := .Int}
      = .err "Class.Append" "target class has not been instantiated" :=
  ⟨rfl, rfl⟩

/-- C4 counterexample: for the 64-bit signed width the overflow limit is
`float64(math.MaxInt64) = 2^63`, so the input `2^63` — exactly one unit
beyond the true maximum `2^63 - 1`, and exactly representable as a
float64 — passes the overflow check and the conversion succeeds, where the
claim requires a failure one unit beyond the limit. -/
theorem StrictlyTo_int64_beyond_max_succeeds :
    TypeOverflowLimit .rInt64 = .ok (2 ^ 63) ∧
    (StrictlyTo (.vint .i64 0) (.vfloat .f64 (2 ^ 63))).isOk = true :=
  ⟨rfl, rfl⟩

/-- C4 amended: converting float 255.0 to the 8-bit unsigned exemplar
succeeds yielding uint8 255 and 256.0 fails; for the 8/16/32-bit integer
widths the exact limit converts and one unit beyond fails; for the 64-bit
widths the limit is the float64 rounding of the maximum (2^63 resp. 2^64),
so the value one unit beyond the true maximum is not rejected. -/
theorem StrictlyTo_boundary_small_widths :
    StrictlyTo (.vuint .u8 0) (.vfloat .f64 255) = .ok [(.rUint8, .vuint .u8 255)] ∧
    StrictlyTo (.vuint .u8 0) (.vfloat .f64 256) = .err "To" "could not convert" ∧
    smallBoundaryCheck = true :=
  ⟨rfl, rfl, rfl⟩

/-- C5 counterexample: `FloatToUint` passes `int(ff)` — truncation toward
zero — to `uintIt`, so 1.9 converts to 1, not to the claimed
round-to-nearest result 2. -/
theorem FloatToUint_one_point_nine :
    FloatToUint (.vfloat .f64 (19/10)) = .ok 1 := by
  have h : intWrap 64 (truncQ (19/10 : ℚ)) = 1 := by
    have h0 : truncQ (19/10 : ℚ) = 1 := by
      unfold truncQ
      rw [if_pos (by norm_num)]
      norm_num
    rw [h0]; rfl
  simp only [FloatToUint, h]
  rfl

/-- C5 amended: `FloatToInt`, `StringToInt` and `StringToUint` round the
parsed value to the nearest integer with ties away from zero when the value
is within the destination width, and fail with an overflow error when it
exceeds the width's limit; `FloatToUint` instead truncates the float toward
zero (the source converts with `int(ff)` before the non-negativity and
overflow checks), so 1.9 yields 1, not 2. -/
theorem narrowing_rounds_except_FloatToUint :
    (∀ q : ℚ, ¬ q > 2 ^ 63 → -(2 ^ 63) ≤ goRound q → goRound q < 2 ^ 63 →
       FloatToInt (.vfloat .f64 q) = .ok (goRound q)) ∧
    (∀ q : ℚ, q > 2 ^ 63 →
       FloatToInt (.vfloat .f64 q) = .err "FloatToInt" "overflow error") ∧
    (∀ (s : String) (q : ℚ), StringToFloat (.vstr s) = .ok q → ¬ q > 2 ^ 63 →
       -(2 ^ 63) ≤ goRound q → goRound q < 2 ^ 63 →
       StringToInt (.vstr s) = .ok (goRound q)) ∧
    (∀ (s : String) (q : ℚ), StringToFloat (.vstr s) = .ok q → q > 2 ^ 63 →
       StringToInt (.vstr s) = .err "StringToInt" "overflow error") ∧
    (∀ (s : String) (q : ℚ), StringToFloat (.vstr s) = .ok q → ¬ q < 0 →
       ¬ q > 2 ^ 64 → goRound q < 2 ^ 64 →
       StringToUint (.vstr s) = .ok (goRound q).toNat) ∧
    (∀ (s : String) (q : ℚ), StringToFloat (.vstr s) = .ok q → ¬ q < 0 →
       q > 2 ^ 64 →
       StringToUint (.vstr s) = .err "StringToUint" "overflow error") ∧
    (∀ q : ℚ, 0 ≤ q → q < 2 ^ 63 →
       FloatToUint (.vfloat .f64 q) = .ok (truncQ q).toNat) := by
  refine ⟨?_, ?_, ?_, ?_, ?_, ?_, ?_⟩
  · intro q h1 h2 h3
    simp [FloatToInt, ConversionOverflow, ToFloat, FloatToFloat,
      TypeOverflowLimit, h1, intWrap64_eq _ h2 h3]
  · intro q h1
    simp [FloatToInt, ConversionOverflow, ToFloat, FloatToFloat,
      TypeOverflowLimit, h1]
  · intro s q h0 h1 h2 h3
    simp [StringToInt, ConversionOverflow, ToFloat, FloatToFloat,
      TypeOverflowLimit, h0, h1, intWrap64_eq _ h2 h3]
  · intro s q h0 h1
    simp [StringToInt, ConversionOverflow, ToFloat, FloatToFloat,
      TypeOverflowLimit, h0, h1]
  · intro s q h0 h1 h2 h3
    have hg : 0 ≤ goRound q := goRound_nonneg q (not_lt.mp h1)
    simp [StringToUint, ConversionOverflow, ToFloat, FloatToFloat,
      TypeOverflowLimit, h0, h1, h2, uintWrap64_eq _ hg h3]
  · intro s q h0 h1 h2
    simp [StringToUint, ConversionOverflow, ToFloat, FloatToFloat,
      TypeOverflowLimit, h0, h1, h2]
  · intro q h0 h1
    have ht0 : 0 ≤ truncQ q := by
      unfold truncQ
      rw [if_pos h0]
      exact Int.floor_nonneg.mpr h0
    have ht1 : truncQ q < 2 ^ 63 := by
      unfold truncQ
      rw [if_pos h0]
      exact Int.floor_lt.mpr (by exact_mod_cast h1)
    have hcast : ¬ ((truncQ q : Int) : ℚ) > 2 ^ 64 := by
      have : ((truncQ q : Int) : ℚ) < 2 ^ 64 := by
        calc ((truncQ q : Int) : ℚ) < (2 : ℚ) ^ 63 := by exact_mod_cast ht1
        _ < 2 ^ 64 := by norm_num
      linarith
    simp [FloatToUint, intWrap64_eq _ (by omega) ht1, uintIt, ConversionOverflow,
      ToFloat, IntToFloat, TypeOverflowLimit, hcast, ht0]

/-- C5 witness: the rounding conversions at 2.5 (rounding to 3), their
overflow failures at the out-of-range value 10^20 (as float input and as
the string "1e20"), and the truncating `FloatToUint` at 1.9 (yielding 1). -/
theorem narrowing_rounds_except_FloatToUint_witness :
    FloatToInt (.vfloat .f64 (5/2)) = .ok (goRound (5/2)) ∧
    FloatToInt (.vfloat .f64 (10 ^ 20)) = .err "FloatToInt" "overflow error" ∧
    StringToInt (.vstr "2.5") = .ok (goRound (5/2)) ∧
    StringToInt (.vstr "1e20") = .err "StringToInt" "overflow error" ∧
    StringToUint (.vstr "2.5") = .ok (goRound (5/2)).toNat ∧
    StringToUint (.vstr "1e20") = .err "StringToUint" "overflow error" ∧
    FloatToUint (.vfloat .f64 (19/10)) = .ok (truncQ (19/10)).toNat := by
  have hg : goRound (5/2 : ℚ) = 3 := by
    unfold goRound
    rw [if_pos (by norm_num)]
    norm_num
  have hs : StringToFloat (.vstr "2.5") = .ok (5/2) := by
    simp [StringToFloat, stripCommas, parseGoFloat, takeDigits, digitsVal, maxFloat64]
    norm_num
  have hb : StringToFloat (.vstr "1e20") = .ok (10 ^ 20) := by
    simp [StringToFloat, stripCommas, parseGoFloat, takeDigits, digitsVal, maxFloat64]
    norm_num
  refine ⟨?_, ?_, ?_, ?_, ?_, ?_, ?_⟩
  · exact narrowing_rounds_except_FloatToUint.1 (5/2) (by norm_num)
      (by rw [hg]; norm_num) (by rw [hg]; norm_num)
  · exact narrowing_rounds_except_FloatToUint.2.1 (10 ^ 20) (by norm_num)
  · exact narrowing_rounds_except_FloatToUint.2.2.1 "2.5" (5/2) hs (by norm_num)
      (by rw [hg]; norm_num) (by rw [hg]; norm_num)
  · exact narrowing_rounds_except_FloatToUint.2.2.2.1 "1e20" (10 ^ 20) hb (by norm_num)
  · exact narrowing_rounds_except_FloatToUint.2.2.2.2.1 "2.5" (5/2) hs (by norm_num)
      (by norm_num) (by rw [hg]; norm_num)
  · exact narrowing_rounds_except_FloatToUint.2.2.2.2.2.1 "1e20" (10 ^ 20) hb
      (by norm_num) (by norm_num)
  · exact narrowing_rounds_except_FloatToUint.2.2.2.2.2.2 (19/10) (by norm_num)
      (by norm_num)

/-- C1 counterexample: −1000 lies below the minimum of the 8-bit signed
width (and its magnitude exceeds the limit 127), yet the overflow predicate
— which compares the signed value against the upper limit only — reports no
overflow, and the strict conversion to the int8 exemplar returns
successfully (with a wrapped value) instead of failing. -/
theorem ConversionOverflow_below_min_not_detected :
    ConversionOverflow .rInt8 (.vfloat .f64 (-1000)) = .ok false ∧
    (StrictlyTo (.vint .i8 0) (.vfloat .f64 (-1000))).isOk = true :=
  ⟨rfl, rfl⟩

/-- C1 amended: the overflow machinery is fail-closed — a failure to obtain
the float value or the limit reports overflow — and a value above the
destination's maximum is rejected; but the predicate compares the signed
float value against the (positive) maximum only, so it returns `false` for
every value at or below the limit, including values below the width's
minimum, which therefore convert (wrapped) instead of failing. -/
theorem ConversionOverflow_upper_bound_only :
    (∀ (k : RKind) (a : GoVal) (fn m : String),
       ToFloat a = .err fn m → ConversionOverflow k a = .ok true) ∧
    (∀ (k : RKind) (a : GoVal) (q : ℚ) (fn m : String),
       ToFloat a = .ok q → TypeOverflowLimit k = .err fn m →
       ConversionOverflow k a = .ok true) ∧
    (∀ (k : RKind) (a : GoVal) (q lim : ℚ),
       ToFloat a = .ok q → TypeOverflowLimit k = .ok lim → q > lim →
       ConversionOverflow k a = .ok true) ∧
    (∀ (k : RKind) (a : GoVal) (q lim : ℚ),
       ToFloat a = .ok q → TypeOverflowLimit k = .ok lim → ¬ q > lim →
       ConversionOverflow k a = .ok false) ∧
    (∀ (w : IW) (q lim : ℚ),
       TypeOverflowLimit w.kind = .ok lim → q > lim →
       StrictlyTo (.vint w 0) (.vfloat .f64 q) = .err "To" "could not convert") := by
  refine ⟨?_, ?_, ?_, ?_, ?_⟩
  · intro k a fn m h
    simp [ConversionOverflow, h]
  · intro k a q fn m h1 h2
    simp [ConversionOverflow, h1, h2]
  · intro k a q lim h1 h2 h3
    simp [ConversionOverflow, h1, h2, h3]
  · intro k a q lim h1 h2 h3
    simp [ConversionOverflow, h1, h2, h3]
  · intro w q lim h1 h2
    cases w <;>
      simp_all [StrictlyTo, TypeOf, IsString, IsBool, IsInt, IsFloat, IsUint,
        IsTime, IsUUID, rkindOfD, reflectKindOf, IW.kind, ConversionOverflow,
        ToFloat, FloatToFloat, TypeOverflowLimit]

/-- C1 witness: the overflow predicate at concrete inputs — a non-numeric
string is fail-closed overflow, −1000 against the int8 width is not
flagged, and 1000 against the int8 exemplar is rejected. -/
theorem ConversionOverflow_upper_bound_only_witness :
    ConversionOverflow .rUint8 (.vstr "x") = .ok true ∧
    ConversionOverflow .rInt8 (.vfloat .f64 (-1000)) = .ok false ∧
    StrictlyTo (.vint .i8 0) (.vfloat .f64 1000) = .err "To" "could not convert" := by
  refine ⟨?_, ?_, ?_⟩
  · exact ConversionOverflow_upper_bound_only.1 .rUint8 (.vstr "x")
      "StringToFloat" "expected numeric string type" rfl
  · exact ConversionOverflow_upper_bound_only.2.2.2.1 .rInt8 (.vfloat .f64 (-1000))
      (-1000) 127 rfl rfl (by norm_num)
  · exact ConversionOverflow_upper_bound_only.2.2.2.2 .i8 1000 127 rfl (by norm_num)

/-- C8 counterexample: the synthesized field name for the key "one_two" is
`ToPascalString("one_two") = "OneTwo"` — the underscore is removed and the
second word capitalized — not the claimed "One_two" (first character
uppercased, remainder as received). -/
theorem MapToReflectStruct_one_two :
    MapToReflectStruct (.vmap [(.vstr "one_two", .vint .i 1)]) ""
      = .ok (.vstruct "" [("OneTwo", [], .vint .i 1)]) := by
  have hp : ToPascalString "one_two" = .ok "OneTwo" := rfl
  simp [MapToReflectStruct, mtrsFields, IsMap, reflectKindOf, hp, dupNames]

/-- Processing one map entry whose formatted key has no entry in the
lookup index yields the unmatched-key error carrying that key. -/
theorem mtsSetField_unmatched (ks n : String) (v : GoVal) (fs : List GoField)
    (idx : List (String × List Nat)) (f : StringFormat) (t : String)
    (h1 : StringFormat.Format f ks = .ok n) (h2 : List.lookup n idx = none) :
    mtsSetField (.vstr ks) v fs idx f t
      = .err "MapToStruct" (" '" ++ n ++ "' not a valid field in struct") := by
  simp [mtsSetField, h1, h2]

/-- If some entry of the remaining key/value list has a string key whose
formatted form is absent from the index, the entry loop never returns
successfully. -/
theorem mtsEntries_unmatched (ks n : String) (v : GoVal)
    (idx : List (String × List Nat)) (f : StringFormat) (t : String)
    (h1 : StringFormat.Format f ks = .ok n) (h2 : List.lookup n idx = none) :
    ∀ (kvs : List (GoVal × GoVal)) (fs : List GoField),
      (GoVal.vstr ks, v) ∈ kvs → (mtsEntries kvs fs idx f t).isOk = false := by
  intro kvs
  induction kvs with
  | nil =>
    intro fs h
    cases h
  | cons kv rest ih =>
    intro fs hmem
    obtain ⟨k0, v0⟩ := kv
    rcases List.mem_cons.mp hmem with heq | htail
    · cases heq
      simp only [mtsEntries, mtsSetField_unmatched ks n v fs idx f t h1 h2]
      rfl
    · cases hset : mtsSetField k0 v0 fs idx f t with
      | ok fs2 =>
        simp only [mtsEntries, hset]
        exact ih fs2 htail
      | err a b => simp [mtsEntries, hset, Res.isOk]
      | goPanic => simp [mtsEntries, hset, Res.isOk]
      | diverge => simp [mtsEntries, hset, Res.isOk]

/-- C6: in the typed map→record direction, a map key (after the casing
transform) that matches no entry of the name-or-tag lookup index is a
terminal failure — the whole mapping returns an error rather than dropping
the key, the entry's own processing yields an error message carrying the
formatted key, and the concrete "nickname" example fails naming
"nickname". -/
theorem MapToStruct_unmatched_key_fails :
    (∀ (ks n : String) (v : GoVal) (fs : List GoField)
       (idx : List (String × List Nat)) (f : StringFormat) (t : String),
       StringFormat.Format f ks = .ok n → List.lookup n idx = none →
       mtsSetField (.vstr ks) v fs idx f t
         = .err "MapToStruct" (" '" ++ n ++ "' not a valid field in struct")) ∧
    (∀ (kvs : List (GoVal × GoVal)) (s : GoVal) (f : StringFormat) (t : String)
       (ks n : String) (v : GoVal),
       (GoVal.vstr ks, v) ∈ kvs →
       StringFormat.Format f ks = .ok n →
       List.lookup n (mapToStructIndex (zeroOf s) t).1 = none →
       (MapToStruct (.vmap kvs) s f t).isOk = false) ∧
    (MapToStruct (.vmap [(.vstr "nickname", .vstr "x")])
        (.vstruct "Person" [("Name", [], .vstr "")]) .None ""
      = .err "MapToStruct" " 'nickname' not a valid field in struct") := by
  refine ⟨?_, ?_, ?_⟩
  · intro ks n v fs idx f t h1 h2
    exact mtsSetField_unmatched ks n v fs idx f t h1 h2
  · intro kvs s f t ks n v hmem h1 h2
    cases s with
    | vstruct sname fs0 =>
      simp only [zeroOf] at h2
      simp only [MapToStruct, IsMap, reflectKindOf, reflectStruct]
      by_cases hio : (mapToStructIndex (.vstruct sname (zeroFields fs0)) t).2
      · have hm := mtsEntries_unmatched ks n v
          (mapToStructIndex (.vstruct sname (zeroFields fs0)) t).1 f t h1 h2
          kvs (zeroFields fs0) hmem
        cases hres : mtsEntries kvs (zeroFields fs0)
            (mapToStructIndex (.vstruct sname (zeroFields fs0)) t).1 f t with
        | ok fs2 => rw [hres] at hm; cases hm
        | err a b => simp [hio, hres, Res.isOk]
        | goPanic => simp [hio, hres, Res.isOk]
        | diverge => simp [hio, hres, Res.isOk]
      · simp [hio, Res.isOk]
        split
        · rename_i a heq
          by_cases ht : t = "" <;> simp [ht] at heq
        · rfl
    | vnil => simp only [MapToStruct]; rfl
    | vstr s0 => simp only [MapToStruct]; rfl
    | vbool b => simp only [MapToStruct]; rfl
    | vint w i => simp only [MapToStruct]; rfl
    | vuint w u => simp only [MapToStruct]; rfl
    | vfloat w q => simp only [MapToStruct]; rfl
    | vtime sec => simp only [MapToStruct]; rfl
    | vuuid u => simp only [MapToStruct]; rfl
    | varr xs => simp only [MapToStruct]; rfl
    | vbytes bs => simp only [MapToStruct]; rfl
    | vmap kvs2 => simp only [MapToStruct]; rfl
    | vptr p => simp only [MapToStruct]; rfl
    | vfunc => simp only [MapToStruct]; rfl
  · have h := mtsSetField_unmatched "nickname" "nickname" (.vstr "x")
      [("Name", [], .vstr "")] [("Name", [0])] .None "" rfl rfl
    simp [MapToStruct, IsMap, reflectKindOf, reflectStruct, zeroOf, zeroFields,
      mapToStructIndex, StructFieldNameIndex, idxInsert, mtsEntries, h]

/-- C6 witness: a single-entry map holding the key "nickname" against a
record with only an "Age" field does not map successfully. -/
theorem MapToStruct_unmatched_key_fails_witness :
    (MapToStruct (.vmap [(.vstr "nickname", .vstr "x")])
        (.vstruct "P2" [("Age", [], .vint .i 0)]) .None "").isOk = false := by
  exact MapToStruct_unmatched_key_fails.2.1
    [(.vstr "nickname", .vstr "x")] (.vstruct "P2" [("Age", [], .vint .i 0)])
    .None "" "nickname" "nickname" (.vstr "x") (List.mem_singleton.mpr rfl) rfl rfl

/-- C9: the pointer branch of `IsEmpty` recurses on the address of its own
parameter (`IsEmpty(&a)`), so on every pointer input the recursion never
returns however much fuel it is given — in the source this is an unbounded
recursion ending in a stack overflow, not the claimed one-level dereference
of the referent. -/
theorem IsEmpty_pointer_never_returns (n : Nat) (v : GoVal) :
    IsEmptyFuel n (.vptr v) = none := by
  induction n generalizing v with
  | zero => rfl
  | succ n ih => exact ih (.vptr v)

/-- C8 amended: the field name synthesized for a string map key is
`ToPascalString` of the key — split on `[_ \n\t]`, capitalize the parts
after the first, join with no separator, then uppercase the first
character — with the original key stored under the tag namespace when one
is given; "one_two" therefore yields the field name "OneTwo". -/
theorem MapToReflectStruct_pascal_names (ks : String) (z : Int) (t mk : String)
    (h : ToPascalString ks = .ok mk) :
    MapToReflectStruct (.vmap [(.vstr ks, .vint .i z)]) t
      = .ok (.vstruct "" [(mk, if t ≠ "" then [(t, ks)] else [], .vint .i z)]) := by
  simp [MapToReflectStruct, mtrsFields, IsMap, reflectKindOf, h, dupNames]

/-- C8 witness: instantiating the amended synthesis statement at the key
"one_two" with tag namespace "json". -/
theorem MapToReflectStruct_pascal_names_witness :
    MapToReflectStruct (.vmap [(.vstr "one_two", .vint .i 7)]) "json"
      = .ok (.vstruct "" [("OneTwo", [("json", "one_two")], .vint .i 7)]) := by
  have h := MapToReflectStruct_pascal_names "one_two" 7 "json" "OneTwo" rfl
  simpa using h

end types
